import Mathlib

/-!
Verification of the LiTime BMS BLE session engine
(`custom_components/litime_bms_ble/coordinator.py`).

Byte buffers are modelled as `List Nat` (a byte buffer is such a list whose
elements are `< 256`; the theorems that need that bound state it as a
hypothesis).  Python floats obtained by scaling integers (`raw / 1000.0`
etc.) are modelled as exact rationals; every claim checked here depends
only on the presence, ordering or zero-ness of those values, never on
float representation or tie-breaking of `round`.  Fallible code returns
`Except` / `Option`; every field read from an inbound frame is
bounds-checked, so a successful parse certifies that no byte beyond the
buffer was read.
-/

namespace LitimeBms

/-- Modelled from the spec: `const.py` is not among the sources; the spec
fixes the minimum status-response length at 104 bytes ("source uses 104"). -/
def MIN_RESPONSE_LENGTH : Nat := 104

/-- Modelled from the spec: `const.py` is not among the sources; the spec
fixes the cell count at "up to 16 cell voltages". -/
def MAX_CELLS : Nat := 16

/-- `coordinator.py`: `RESPONSE_MARKER_OFFSET = 2`. -/
def RESPONSE_MARKER_OFFSET : Nat := 2

/-- `coordinator.py`: `RESPONSE_MARKER_VALUE = 0x65`. -/
def RESPONSE_MARKER_VALUE : Nat := 0x65

/-- Modelled from the spec: `const.py` is not among the sources.  The
battery-state enum values, the protection-flag table and the relay/query
opcodes are imported there by `coordinator.py`; their concrete values are
unknown, so every function that uses them is parameterised over this
record and every theorem quantifies over it. -/
structure ProtocolConsts where
  BATTERY_STATE_CHARGING : Nat
  BATTERY_STATE_DISCHARGING : Nat
  BATTERY_STATE_CHARGE_DISABLED : Nat
  PROTECTION_FLAGS : List (Nat × String)
  CMD_QUERY_STATUS : Nat
  CMD_CHARGE_ON : Nat
  CMD_CHARGE_OFF : Nat
  CMD_DISCHARGE_ON : Nat
  CMD_DISCHARGE_OFF : Nat
  deriving Repr, DecidableEq

/-- A concrete instantiation of the unknown constants, used only to build
closed witnesses/counterexamples; no theorem depends on these values. -/
def defaultConsts : ProtocolConsts :=
  { BATTERY_STATE_CHARGING := 1
    BATTERY_STATE_DISCHARGING := 2
    BATTERY_STATE_CHARGE_DISABLED := 3
    PROTECTION_FLAGS := []
    CMD_QUERY_STATUS := 0x01
    CMD_CHARGE_ON := 0x06
    CMD_CHARGE_OFF := 0x07
    CMD_DISCHARGE_ON := 0x08
    CMD_DISCHARGE_OFF := 0x09 }

/-! ### Frame codec: outbound commands (`_build_command`) -/

/-- `_build_command(cmd)`: 8-byte frame
`[0x00, 0x00, 0x04, 0x01, cmd, 0x55, 0xAA, (0x04 + 0x01 + cmd) & 0xFF]`. -/
def build_command (cmd : Nat) : List Nat :=
  [0x00, 0x00, 0x04, 0x01, cmd, 0x55, 0xAA, (0x04 + 0x01 + cmd) % 256]

/-! ### Frame codec: inbound status frames (`_parse_status_response`)

Bounds-checked little-endian readers.  `data[i]?` is `none` exactly when
`i ≥ data.length`, so a reader returns `some` only when every byte it
touches lies inside the buffer. -/

/-- Unsigned 16-bit little-endian read, bounds-checked. -/
def u16le? (data : List Nat) (off : Nat) : Option Nat := do
  let b0 ← data[off]?
  let b1 ← data[off + 1]?
  pure (b0 + 256 * b1)

/-- Unsigned 32-bit little-endian read, bounds-checked. -/
def u32le? (data : List Nat) (off : Nat) : Option Nat := do
  let b0 ← data[off]?
  let b1 ← data[off + 1]?
  let b2 ← data[off + 2]?
  let b3 ← data[off + 3]?
  pure (b0 + 256 * b1 + 65536 * b2 + 16777216 * b3)

/-- Reinterpret an unsigned `n`-bit value (`n = 16` or `32`) as two's
complement signed. -/
def toSigned (width : Nat) (n : Nat) : Int :=
  if n < 2 ^ (width - 1) then (n : Int) else (n : Int) - 2 ^ width

/-- Signed 16-bit little-endian read, bounds-checked. -/
def i16le? (data : List Nat) (off : Nat) : Option Int :=
  (u16le? data off).map (toSigned 16)

/-- Signed 32-bit little-endian read, bounds-checked. -/
def i32le? (data : List Nat) (off : Nat) : Option Int :=
  (u32le? data off).map (toSigned 32)

/-- Total unsigned 16-bit little-endian read (missing bytes read as 0).
Agrees with `u16le?` whenever the read is in bounds; used to state and
prove what a successful parse returns. -/
def u16le (data : List Nat) (off : Nat) : Nat :=
  data.getD off 0 + 256 * data.getD (off + 1) 0

/-- Total unsigned 32-bit little-endian read. -/
def u32le (data : List Nat) (off : Nat) : Nat :=
  data.getD off 0 + 256 * data.getD (off + 1) 0
    + 65536 * data.getD (off + 2) 0 + 16777216 * data.getD (off + 3) 0

/-- Total signed 16-bit little-endian read. -/
def i16le (data : List Nat) (off : Nat) : Int :=
  toSigned 16 (u16le data off)

/-- Total signed 32-bit little-endian read. -/
def i32le (data : List Nat) (off : Nat) : Int :=
  toSigned 32 (u32le data off)

/-- Python's `round(x, n)` on the exact-rational model (ties are
irrelevant to every claim below). -/
def roundTo (n : Nat) (q : ℚ) : ℚ :=
  ((round (q * 10 ^ n) : ℤ) : ℚ) / 10 ^ n

/-- `_decode_protection_flags(flags)`. -/
def decode_protection_flags (C : ProtocolConsts) (flags : Nat) : String :=
  if flags = 0 then "OK"
  else
    let parts := (C.PROTECTION_FLAGS.filter
      (fun p => Nat.land flags p.1 ≠ 0)).map Prod.snd
    if parts = [] then "OK" else String.intercalate ", " parts

/-- `_decode_failure_flags(flags)` (the hex rendering of a nonzero code is
abstracted; no claim depends on the digits). -/
def decode_failure_flags (flags : Nat) : String :=
  if flags = 0 then "OK" else "Error: 0x" ++ toString flags

/-- The decoded Status Reading: the exact key set of the dict built by
`_parse_status_response` / `_offline_data`.  Every field except `online`
is optional,`none` modelling the Python value `None`. -/
structure StatusReading where
  online : Bool
  total_voltage : Option ℚ
  current : Option ℚ
  power : Option ℚ
  state_of_charge : Option Nat
  state_of_health : Option Nat
  cell_temperature : Option Int
  mosfet_temperature : Option Int
  remaining_capacity : Option ℚ
  full_charge_capacity : Option ℚ
  discharge_cycles : Option Nat
  total_discharge_ah : Option ℚ
  min_cell_voltage : Option ℚ
  max_cell_voltage : Option ℚ
  delta_cell_voltage : Option ℚ
  cell_voltages : List (Option ℚ)
  charging : Option Bool
  discharging : Option Bool
  balancing : Option Bool
  charge_enabled : Option Bool
  discharge_enabled : Option Bool
  protection_status : Option String
  failure_status : Option String

/-- The cell-voltage loop of `_parse_status_response`: running
`(min_cell, max_cell, cell_count)` accumulator, started at
`(99.0, 0.0, 0)`, skipping raw values of `0`. -/
def cellLoop : List Nat → ℚ → ℚ → Nat → ℚ × ℚ × Nat
  | [], mn, mx, c => (mn, mx, c)
  | raw :: rest, mn, mx, c =>
    if raw = 0 then cellLoop rest mn mx c
    else
      let v : ℚ := (raw : ℚ) / 1000
      cellLoop rest (if v < mn then v else mn) (if v > mx then v else mx) (c + 1)

/-- The 16 raw cell words of `for i in range(MAX_CELLS)` (`<H` reads at
offsets `16 + 2*i`, i.e. 16, 18, …, 46), bounds-checked; the loop is
unrolled since `MAX_CELLS = 16` is fixed. -/
def cellRaws? (data : List Nat) : Option (List Nat) :=
  match u16le? data 16, u16le? data 18, u16le? data 20, u16le? data 22,
    u16le? data 24, u16le? data 26, u16le? data 28, u16le? data 30,
    u16le? data 32, u16le? data 34, u16le? data 36, u16le? data 38,
    u16le? data 40, u16le? data 42, u16le? data 44, u16le? data 46 with
  | some c0, some c1, some c2, some c3, some c4, some c5, some c6, some c7,
    some c8, some c9, some c10, some c11, some c12, some c13, some c14,
    some c15 =>
      some [c0, c1, c2, c3, c4, c5, c6, c7, c8, c9, c10, c11, c12, c13,
            c14, c15]
  | _, _, _, _, _, _, _, _, _, _, _, _, _, _, _, _ => none

inductive DecodeError where
  | frameTooShort
  | outOfRange
  deriving Repr, DecidableEq

/-- Body of `_parse_status_response` after the length guard.  Every field
read is bounds-checked; the function returns `some` only if no read went
past the end of `data`.  (The reads are pure, so gathering them in a
single `match` is equivalent to the sequential reads of the Python
source; a `struct` read past the buffer maps to the `none` branch.) -/
def parseBody (C : ProtocolConsts) (data : List Nat) : Option StatusReading :=
  match u32le? data 12, cellRaws? data, i32le? data 48, i16le? data 52,
    i16le? data 54, u16le? data 62, u16le? data 64, u32le? data 68,
    u32le? data 76, u32le? data 80, u32le? data 84, u16le? data 88,
    u16le? data 90, u16le? data 92, u32le? data 96, u32le? data 100 with
  | some tvRaw, some raws, some curRaw, some cell_temperature,
    some mosfet_temperature, some remCapRaw, some fullCapRaw,
    some heat_state, some protection_flags, some failure_flags,
    some balancing_state, some battery_state, some soc, some soh,
    some discharge_cycles, some tdaRaw =>
    let total_voltage : ℚ := (tvRaw : ℚ) / 1000
    let cell_voltages := raws.map
      (fun raw => if raw = 0 then none else some ((raw : ℚ) / 1000))
    let mmc := cellLoop raws 99 0 0
    let min_cell := mmc.1
    let max_cell := mmc.2.1
    let cell_count := mmc.2.2
    let current : ℚ := (curRaw : ℚ) / 1000
    some
    { online := true
      total_voltage := some total_voltage
      current := some current
      power := some (roundTo 1 (total_voltage * current))
      state_of_charge := some soc
      state_of_health := some soh
      cell_temperature := some cell_temperature
      mosfet_temperature := some mosfet_temperature
      remaining_capacity := some ((remCapRaw : ℚ) / 100)
      full_charge_capacity := some ((fullCapRaw : ℚ) / 100)
      discharge_cycles := some discharge_cycles
      total_discharge_ah := some ((tdaRaw : ℚ) / 1000)
      min_cell_voltage := if cell_count > 0 then some min_cell else none
      max_cell_voltage := if cell_count > 0 then some max_cell else none
      delta_cell_voltage :=
        if cell_count > 0 then some (roundTo 3 (max_cell - min_cell)) else none
      cell_voltages := cell_voltages
      charging := some (decide (battery_state = C.BATTERY_STATE_CHARGING))
      discharging :=
        some (decide (battery_state = C.BATTERY_STATE_DISCHARGING)
          && decide (current < 0))
      balancing := some (decide (balancing_state ≠ 0))
      charge_enabled :=
        some (decide (battery_state ≠ C.BATTERY_STATE_CHARGE_DISABLED))
      discharge_enabled := some (! decide (Nat.land heat_state 0x80 ≠ 0))
      protection_status := some (decode_protection_flags C protection_flags)
      failure_status := some (decode_failure_flags failure_flags) }
  | _, _, _, _, _, _, _, _, _, _, _, _, _, _, _, _ => none

/-- The 16 raw cell words via the total readers; equals the list inside
`cellRaws? data = some _` whenever the buffer is long enough. -/
def cellRawsT (data : List Nat) : List Nat :=
  [u16le data 16, u16le data 18, u16le data 20, u16le data 22,
   u16le data 24, u16le data 26, u16le data 28, u16le data 30,
   u16le data 32, u16le data 34, u16le data 36, u16le data 38,
   u16le data 40, u16le data 42, u16le data 44, u16le data 46]

/-- The reading a successful parse produces, written with the total
readers.  `parseBody` returns exactly `some (parseBodyT C data)` for
every buffer of length ≥ `MIN_RESPONSE_LENGTH` (proved below). -/
def parseBodyT (C : ProtocolConsts) (data : List Nat) : StatusReading :=
  let total_voltage : ℚ := (u32le data 12 : ℚ) / 1000
  let raws := cellRawsT data
  let mmc := cellLoop raws 99 0 0
  let current : ℚ := ((i32le data 48 : ℤ) : ℚ) / 1000
  { online := true
    total_voltage := some total_voltage
    current := some current
    power := some (roundTo 1 (total_voltage * current))
    state_of_charge := some (u16le data 90)
    state_of_health := some (u16le data 92)
    cell_temperature := some (i16le data 52)
    mosfet_temperature := some (i16le data 54)
    remaining_capacity := some ((u16le data 62 : ℚ) / 100)
    full_charge_capacity := some ((u16le data 64 : ℚ) / 100)
    discharge_cycles := some (u32le data 96)
    total_discharge_ah := some ((u32le data 100 : ℚ) / 1000)
    min_cell_voltage := if mmc.2.2 > 0 then some mmc.1 else none
    max_cell_voltage := if mmc.2.2 > 0 then some mmc.2.1 else none
    delta_cell_voltage :=
      if mmc.2.2 > 0 then some (roundTo 3 (mmc.2.1 - mmc.1)) else none
    cell_voltages := raws.map
      (fun raw => if raw = 0 then none else some ((raw : ℚ) / 1000))
    charging := some (decide (u16le data 88 = C.BATTERY_STATE_CHARGING))
    discharging :=
      some (decide (u16le data 88 = C.BATTERY_STATE_DISCHARGING)
        && decide (current < 0))
    balancing := some (decide (u32le data 84 ≠ 0))
    charge_enabled :=
      some (decide (u16le data 88 ≠ C.BATTERY_STATE_CHARGE_DISABLED))
    discharge_enabled := some (! decide (Nat.land (u32le data 68) 0x80 ≠ 0))
    protection_status := some (decode_protection_flags C (u32le data 76))
    failure_status := some (decode_failure_flags (u32le data 80)) }

/-- `_parse_status_response(data)`: length guard, then the field reads.
`frameTooShort` models the `ValueError` raised for a short buffer (raised
before any field offset is accessed); `outOfRange` would model a `struct`
read past the buffer end, which the theorems show never happens once the
guard passes. -/
def parse_status_response (C : ProtocolConsts) (data : List Nat) :
    Except DecodeError StatusReading :=
  if data.length < MIN_RESPONSE_LENGTH then .error .frameTooShort
  else
    match parseBody C data with
    | some r => .ok r
    | none => .error .outOfRange

/-- `_offline_data()`: every field `None`, `online = False`. -/
def offline_data : StatusReading :=
  { online := false
    total_voltage := none
    current := none
    power := none
    state_of_charge := none
    state_of_health := none
    cell_temperature := none
    mosfet_temperature := none
    remaining_capacity := none
    full_charge_capacity := none
    discharge_cycles := none
    total_discharge_ah := none
    min_cell_voltage := none
    max_cell_voltage := none
    delta_cell_voltage := none
    cell_voltages := List.replicate MAX_CELLS none
    charging := none
    discharging := none
    balancing := none
    charge_enabled := none
    discharge_enabled := none
    protection_status := none
    failure_status := none }

/-! ### Notification Reassembler (`_notification_handler`)

The handler's observable effect is the new `_response_buffer` plus the
frame (if any) stored to `_response_data` together with the event being
set; it is modelled as a function from the current buffer and the inbound
packet to the new buffer and an optional emitted frame. -/

/-- The completion check at the end of `_notification_handler`: emit and
clear once the accumulated buffer reaches `MIN_RESPONSE_LENGTH`. -/
def emitCheck (buf : List Nat) : List Nat × Option (List Nat) :=
  if MIN_RESPONSE_LENGTH ≤ buf.length then ([], some buf) else (buf, none)

/-- `len(data) > RESPONSE_MARKER_OFFSET and data[RESPONSE_MARKER_OFFSET]
== RESPONSE_MARKER_VALUE` (the short-circuit guard never indexes a packet
of length ≤ 2). -/
def isMarkerPacket (data : List Nat) : Bool :=
  decide (RESPONSE_MARKER_OFFSET < data.length)
    && decide (data.getD RESPONSE_MARKER_OFFSET 0 = RESPONSE_MARKER_VALUE)

/-- `_notification_handler`: marker packet restarts accumulation; other
packets extend a nonempty buffer or are discarded; a buffer reaching the
minimum length is emitted and cleared. -/
def notification_handler (buffer : List Nat) (data : List Nat) :
    List Nat × Option (List Nat) :=
  if isMarkerPacket data then emitCheck data
  else if 0 < buffer.length then emitCheck (buffer ++ data)
  else (buffer, none)

/-- The two-state machine of spec §4.2: `Idle` (no partial frame) or
`Accumulating` a partial frame. -/
inductive ReasmState where
  | idle
  | accumulating (buf : List Nat)
  deriving Repr, DecidableEq

/-- Modelled from the spec (§4.2), for comparison with
`notification_handler`: a marker packet (third byte equals the marker
value) starts a new accumulation, discarding any prior partial buffer;
otherwise an `Accumulating` state appends the packet and an `Idle` state
discards it; after every append, a buffer of at least the minimum
response length is emitted and the machine returns to `Idle`. -/
def reasmSpecStep (st : ReasmState) (pkt : List Nat) :
    ReasmState × Option (List Nat) :=
  let continue_ : List Nat → ReasmState × Option (List Nat) := fun buf =>
    if MIN_RESPONSE_LENGTH ≤ buf.length then (.idle, some buf)
    else (.accumulating buf, none)
  if isMarkerPacket pkt then continue_ pkt
  else
    match st with
    | .idle => (.idle, none)
    | .accumulating buf => continue_ (buf ++ pkt)

/-- Abstraction from the code's buffer to the spec machine's state: an
empty buffer is `Idle`, a nonempty buffer is `Accumulating` it. -/
def absBuf (buffer : List Nat) : ReasmState :=
  if buffer = [] then .idle else .accumulating buffer

/-! ### Link Manager and Session Engine state

`EngineState` holds exactly the mutable coordinator fields the claims are
about.  `client = some c` models a `BleakClient` object with
`is_connected = c`; `none` models `self._client = None`.  The
characteristics are modelled by opaque identifiers. -/

structure EngineState where
  client : Option Bool
  write_char : Option Nat
  notify_char : Option Nat
  missed_updates : Nat
  connected : Bool
  connection_enabled : Bool
  response_buffer : List Nat
  response_data : Option (List Nat)
  deriving Repr, DecidableEq

/-- Environment outcomes for one `_ensure_connected` attempt (everything
the surrounding system decides): the device may be unresolvable, any
transport call in the `try` block may raise (`BleakError` / `TimeoutError`
/ `OSError`), or connection and service discovery succeed with the given
results of the characteristic-selection loop. -/
inductive ConnectEnv where
  | deviceUnavailable
  | connectRaises
  | negotiated (notifyFound : Option Nat) (writeFound : Option Nat)
  deriving Repr, DecidableEq

/-- `_ensure_connected`: fast path when a connected client exists;
otherwise resolve, connect, negotiate characteristics; negotiation
failure tears the fresh connection down; any raise clears all handle
state.  Returns the new state and the boolean result. -/
def ensure_connected (s : EngineState) (env : ConnectEnv) :
    EngineState × Bool :=
  if s.client = some true then (s, true)
  else
    match env with
    | .deviceUnavailable => (s, false)
    | .connectRaises =>
      ({ s with client := none, write_char := none, notify_char := none,
                connected := false }, false)
    | .negotiated notifyFound writeFound =>
      -- establish_connection succeeded: client is connected from here on
      match notifyFound with
      | none =>
        -- notify characteristic missing: disconnect, clear client only
        ({ s with client := none }, false)
      | some n =>
        match writeFound with
        | none =>
          -- subscribed (notify_char set), then no writable characteristic:
          -- disconnect, clear client only
          ({ s with client := none, notify_char := some n }, false)
        | some w =>
          ({ s with client := some true, notify_char := some n,
                    write_char := some w, connected := true,
                    missed_updates := 0 }, true)

/-- Result of `_send_command`: silently skipped (no client or no write
characteristic), written successfully, or the transport write raised
(which `_send_command` re-raises). -/
inductive SendResult where
  | skipped
  | sent (frame : List Nat)
  | raised
  deriving Repr, DecidableEq

/-- `_send_command(cmd)` given whether the transport write fails. -/
def send_command (s : EngineState) (cmd : Nat) (writeFails : Bool) :
    SendResult :=
  if s.client = none ∨ s.write_char = none then .skipped
  else if writeFails then .raised
  else .sent (build_command cmd)

/-- Environment outcomes for one polling cycle beyond the connect phase:
whether the query write fails, the frame emitted by the reassembler
within the 10 s window (`none` = timeout), and the reassembly buffer
content after the wait (notifications are asynchronous pushes, so the
buffer at the end of the wait is environment-determined). -/
structure UpdateEnv where
  conn : ConnectEnv
  writeFails : Bool
  waitResult : Option (List Nat)
  bufferAfterWait : List Nat
  deriving Repr, DecidableEq

/-- `_async_update_data`: one polling cycle.  Returns the new engine
state and the reading handed to the caller. -/
def async_update_data (C : ProtocolConsts) (s : EngineState)
    (env : UpdateEnv) : EngineState × StatusReading :=
  if s.connection_enabled = false then (s, offline_data)
  else
    match ensure_connected s env.conn with
    | (s1, false) =>
      ({ s1 with missed_updates := s1.missed_updates + 1 }, offline_data)
    | (s1, true) =>
      -- reset event, response data and buffer, then send the query
      let s2 := { s1 with response_data := none, response_buffer := [] }
      match send_command s2 C.CMD_QUERY_STATUS env.writeFails with
      | .raised =>
        ({ s2 with missed_updates := s2.missed_updates + 1,
                   connected := false, client := none,
                   write_char := none, notify_char := none }, offline_data)
      | _ =>
        -- wait for the response event with a 10 s timeout
        match env.waitResult with
        | none =>
          ({ s2 with response_buffer := env.bufferAfterWait,
                     missed_updates := s2.missed_updates + 1 }, offline_data)
        | some frame =>
          let s3 := { s2 with response_data := some frame,
                              response_buffer := env.bufferAfterWait }
          match s3.response_data with
          | none => (s3, offline_data)
          | some f =>
            match parse_status_response C f with
            | .ok r => ({ s3 with missed_updates := 0 }, r)
            | .error _ => (s3, offline_data)

/-- Outcome of a relay-control operation as seen by its caller:
returned normally (with the opcode that was written, if any), or an
exception propagated out of the operation. -/
inductive RelayOutcome where
  | returned (sentCmd : Option Nat)
  | raised
  deriving Repr, DecidableEq

/-- `async_set_charging(enabled)`: ensure connection (log and return when
unavailable), then send `CMD_CHARGE_ON`/`CMD_CHARGE_OFF`.  The transport
write failure re-raised by `_send_command` is not caught here, so it
escapes to the caller.  (The trailing `async_request_refresh` only
schedules the next cycle and is not part of the state modelled here.) -/
def async_set_charging (C : ProtocolConsts) (s : EngineState)
    (enabled : Bool) (env : ConnectEnv) (writeFails : Bool) :
    EngineState × RelayOutcome :=
  match ensure_connected s env with
  | (s1, false) => (s1, .returned none)
  | (s1, true) =>
    let cmd := if enabled then C.CMD_CHARGE_ON else C.CMD_CHARGE_OFF
    match send_command s1 cmd writeFails with
    | .skipped => (s1, .returned none)
    | .sent _ => (s1, .returned (some cmd))
    | .raised => (s1, .raised)

/-- `async_set_discharging(enabled)`: same skeleton with the discharge
opcodes. -/
def async_set_discharging (C : ProtocolConsts) (s : EngineState)
    (enabled : Bool) (env : ConnectEnv) (writeFails : Bool) :
    EngineState × RelayOutcome :=
  match ensure_connected s env with
  | (s1, false) => (s1, .returned none)
  | (s1, true) =>
    let cmd := if enabled then C.CMD_DISCHARGE_ON else C.CMD_DISCHARGE_OFF
    match send_command s1 cmd writeFails with
    | .skipped => (s1, .returned none)
    | .sent _ => (s1, .returned (some cmd))
    | .raised => (s1, .raised)

/-! ## Helper lemmas -/

lemma u16le?_eq {data : List Nat} {off : Nat} (h : off + 1 < data.length) :
    u16le? data off = some (u16le data off) := by
  have h0 : off < data.length := by omega
  simp [u16le?, u16le, List.getElem?_eq_getElem, h, h0, List.getD_eq_getElem]

lemma u32le?_eq {data : List Nat} {off : Nat} (h : off + 3 < data.length) :
    u32le? data off = some (u32le data off) := by
  have h0 : off < data.length := by omega
  have h1 : off + 1 < data.length := by omega
  have h2 : off + 2 < data.length := by omega
  simp [u32le?, u32le, List.getElem?_eq_getElem, h, h0, h1, h2,
    List.getD_eq_getElem]

lemma i16le?_eq {data : List Nat} {off : Nat} (h : off + 1 < data.length) :
    i16le? data off = some (i16le data off) := by
  simp [i16le?, i16le, u16le?_eq h]

lemma i32le?_eq {data : List Nat} {off : Nat} (h : off + 3 < data.length) :
    i32le? data off = some (i32le data off) := by
  simp [i32le?, i32le, u32le?_eq h]

lemma cellRaws?_eq {data : List Nat} (h : 48 ≤ data.length) :
    cellRaws? data = some (cellRawsT data) := by
  unfold cellRaws? cellRawsT
  simp (disch := omega) only [u16le?_eq]

lemma parseBody_eq (C : ProtocolConsts) {data : List Nat}
    (h : MIN_RESPONSE_LENGTH ≤ data.length) :
    parseBody C data = some (parseBodyT C data) := by
  have h' : 104 ≤ data.length := h
  unfold parseBody parseBodyT
  simp (disch := omega) only [u16le?_eq, u32le?_eq, i16le?_eq, i32le?_eq,
    cellRaws?_eq]

lemma parse_ok (C : ProtocolConsts) {data : List Nat}
    (h : MIN_RESPONSE_LENGTH ≤ data.length) :
    parse_status_response C data = .ok (parseBodyT C data) := by
  have h' : 104 ≤ data.length := h
  unfold parse_status_response
  rw [if_neg (by simp [MIN_RESPONSE_LENGTH]; omega), parseBody_eq C h]

lemma parse_short (C : ProtocolConsts) {data : List Nat}
    (h : data.length < MIN_RESPONSE_LENGTH) :
    parse_status_response C data = .error .frameTooShort := by
  unfold parse_status_response
  rw [if_pos h]

lemma parse_ok_inv (C : ProtocolConsts) {data : List Nat} {r : StatusReading}
    (h : parse_status_response C data = .ok r) : r = parseBodyT C data := by
  by_cases hlen : data.length < MIN_RESPONSE_LENGTH
  · rw [parse_short C hlen] at h; exact absurd h (by simp)
  · rw [parse_ok C (by omega)] at h
    exact (Except.ok.inj h).symm

lemma parseBodyT_min (C : ProtocolConsts) (data : List Nat) :
    (parseBodyT C data).min_cell_voltage
      = if 0 < (cellLoop (cellRawsT data) 99 0 0).2.2
        then some (cellLoop (cellRawsT data) 99 0 0).1 else none := rfl

lemma parseBodyT_max (C : ProtocolConsts) (data : List Nat) :
    (parseBodyT C data).max_cell_voltage
      = if 0 < (cellLoop (cellRawsT data) 99 0 0).2.2
        then some (cellLoop (cellRawsT data) 99 0 0).2.1 else none := rfl

lemma parseBodyT_delta (C : ProtocolConsts) (data : List Nat) :
    (parseBodyT C data).delta_cell_voltage
      = if 0 < (cellLoop (cellRawsT data) 99 0 0).2.2
        then some (roundTo 3 ((cellLoop (cellRawsT data) 99 0 0).2.1
          - (cellLoop (cellRawsT data) 99 0 0).1)) else none := rfl

lemma parseBodyT_cells (C : ProtocolConsts) (data : List Nat) :
    (parseBodyT C data).cell_voltages
      = (cellRawsT data).map
          (fun raw => if raw = 0 then none else some ((raw : ℚ) / 1000)) :=
  rfl

/-- Raw values of `0` are skipped by the cell loop: running it on a raw
list gives the same accumulator as running it on the nonzero raws only. -/
lemma cellLoop_filter (rs : List Nat) : ∀ (mn mx : ℚ) (c : Nat),
    cellLoop rs mn mx c
      = cellLoop (rs.filter (fun raw => decide (raw ≠ 0))) mn mx c := by
  induction rs with
  | nil => intro mn mx c; rfl
  | cons a rs ih =>
    intro mn mx c
    by_cases ha : a = 0
    · subst ha
      simp [cellLoop, List.filter_cons, ih]
    · simp [cellLoop, List.filter_cons, ha, ih]

lemma getD_replicate_zero (n i : Nat) :
    (List.replicate n 0).getD i 0 = 0 := by
  rcases Nat.lt_or_ge i n with h | h
  · have hl : i < (List.replicate n 0).length := by simpa using h
    rw [List.getD_eq_getElem _ _ hl]
    simp
  · rw [List.getD_eq_default]
    simpa using h

lemma u16le_replicate_zero (n off : Nat) :
    u16le (List.replicate n 0) off = 0 := by
  simp [u16le, getD_replicate_zero]

lemma ensure_true_client {s s1 : EngineState} {env : ConnectEnv}
    (h : ensure_connected s env = (s1, true)) : s1.client = some true := by
  unfold ensure_connected at h
  by_cases hc : s.client = some true
  · rw [if_pos hc] at h
    cases h
    exact hc
  · rw [if_neg hc] at h
    cases env with
    | deviceUnavailable => exact absurd h (by simp)
    | connectRaises => exact absurd h (by simp)
    | negotiated nf wf =>
      cases nf with
      | none => exact absurd h (by simp)
      | some n =>
        cases wf with
        | none => exact absurd h (by simp)
        | some w =>
          cases h
          rfl

lemma ensure_fail_missed {s s1 : EngineState} {env : ConnectEnv}
    (h : ensure_connected s env = (s1, false)) :
    s1.missed_updates = s.missed_updates := by
  unfold ensure_connected at h
  by_cases hc : s.client = some true
  · rw [if_pos hc] at h
    exact absurd h (by simp)
  · rw [if_neg hc] at h
    cases env with
    | deviceUnavailable => cases h; rfl
    | connectRaises => cases h; rfl
    | negotiated nf wf =>
      cases nf with
      | none => cases h; rfl
      | some n =>
        cases wf with
        | none => cases h; rfl
        | some w => exact absurd h (by simp)

lemma ensure_fresh_reset {s s1 : EngineState} {env : ConnectEnv}
    (hc : s.client ≠ some true) (h : ensure_connected s env = (s1, true)) :
    s1.missed_updates = 0 := by
  unfold ensure_connected at h
  rw [if_neg hc] at h
  cases env with
  | deviceUnavailable => exact absurd h (by simp)
  | connectRaises => exact absurd h (by simp)
  | negotiated nf wf =>
    cases nf with
    | none => exact absurd h (by simp)
    | some n =>
      cases wf with
      | none => exact absurd h (by simp)
      | some w =>
        cases h
        rfl

lemma ensure_fastpath {s : EngineState} (hc : s.client = some true)
    (env : ConnectEnv) : ensure_connected s env = (s, true) := by
  unfold ensure_connected
  rw [if_pos hc]

lemma ensure_no_fastpath {s : EngineState} (hc : s.client ≠ some true)
    {env : ConnectEnv} {t : EngineState}
    (h : ensure_connected s env = (t, true)) :
    ∃ n w, env = .negotiated (some n) (some w) := by
  unfold ensure_connected at h
  rw [if_neg hc] at h
  cases env with
  | deviceUnavailable => exact absurd h (by simp)
  | connectRaises => exact absurd h (by simp)
  | negotiated nf wf =>
    cases nf with
    | none => exact absurd h (by simp)
    | some n =>
      cases wf with
      | none => exact absurd h (by simp)
      | some w => exact ⟨n, w, rfl⟩

lemma send_command_no_raise (s : EngineState) (cmd : Nat) :
    send_command s cmd false = .skipped
      ∨ send_command s cmd false = .sent (build_command cmd) := by
  unfold send_command
  by_cases hc : s.client = none ∨ s.write_char = none
  · rw [if_pos hc]
    exact Or.inl rfl
  · rw [if_neg hc]
    exact Or.inr rfl

lemma send_command_raise {s : EngineState} (cmd : Nat)
    (hc : s.client ≠ none) (hw : s.write_char ≠ none) :
    send_command s cmd true = .raised := by
  unfold send_command
  rw [if_neg (by simp [hc, hw])]
  rfl

/-- The reassembler emits only frames of length ≥ `MIN_RESPONSE_LENGTH`,
so a frame handed to the parser always passes the length guard: the
decode-failure path of `_async_update_data` is unreachable for
handler-delivered frames. -/
lemma notification_handler_emit_length {b p b' f : List Nat}
    (h : notification_handler b p = (b', some f)) :
    MIN_RESPONSE_LENGTH ≤ f.length := by
  unfold notification_handler emitCheck at h
  by_cases hm : isMarkerPacket p
  · rw [if_pos hm] at h
    by_cases hl : MIN_RESPONSE_LENGTH ≤ p.length
    · rw [if_pos hl] at h
      cases h
      exact hl
    · rw [if_neg hl] at h
      exact absurd h (by simp)
  · rw [if_neg hm] at h
    by_cases hb : 0 < b.length
    · rw [if_pos hb] at h
      by_cases hl : MIN_RESPONSE_LENGTH ≤ (b ++ p).length
      · rw [if_pos hl] at h
        cases h
        exact hl
      · rw [if_neg hl] at h
        exact absurd h (by simp)
    · rw [if_neg hb] at h
      exact absurd h (by simp)

lemma update_connfail_eq (C : ProtocolConsts) {s s1 : EngineState}
    {env : UpdateEnv} (hen : s.connection_enabled = true)
    (hfail : ensure_connected s env.conn = (s1, false)) :
    async_update_data C s env
      = ({ s1 with missed_updates := s1.missed_updates + 1 },
          offline_data) := by
  unfold async_update_data
  rw [if_neg (by simp [hen]), hfail]

lemma update_sendfail_eq (C : ProtocolConsts) {s s1 : EngineState}
    {env : UpdateEnv} (hen : s.connection_enabled = true)
    (hok : ensure_connected s env.conn = (s1, true))
    (hwf : env.writeFails = true) (hw : s1.write_char ≠ none) :
    async_update_data C s env
      = ({ s1 with response_data := none, response_buffer := [],
                   missed_updates := s1.missed_updates + 1,
                   connected := false, client := none,
                   write_char := none, notify_char := none },
          offline_data) := by
  have hc : s1.client ≠ none := by
    rw [ensure_true_client hok]
    simp
  unfold async_update_data
  rw [if_neg (by simp [hen]), hok, hwf]
  have hsr : send_command
      { s1 with response_data := none, response_buffer := [] }
      C.CMD_QUERY_STATUS true = .raised :=
    send_command_raise _ hc hw
  simp [hsr]

lemma update_timeout_eq (C : ProtocolConsts) {s s1 : EngineState}
    {env : UpdateEnv} (hen : s.connection_enabled = true)
    (hok : ensure_connected s env.conn = (s1, true))
    (hwf : env.writeFails = false) (hwr : env.waitResult = none) :
    async_update_data C s env
      = ({ s1 with response_data := none,
                   response_buffer := env.bufferAfterWait,
                   missed_updates := s1.missed_updates + 1 },
          offline_data) := by
  unfold async_update_data
  rw [if_neg (by simp [hen]), hok, hwf, hwr]
  rcases send_command_no_raise
      { s1 with response_data := none, response_buffer := [] }
      C.CMD_QUERY_STATUS with hs | hs <;> simp [hs]

lemma update_success_eq (C : ProtocolConsts) {s s1 : EngineState}
    {env : UpdateEnv} {f : List Nat} (hen : s.connection_enabled = true)
    (hok : ensure_connected s env.conn = (s1, true))
    (hwf : env.writeFails = false) (hwr : env.waitResult = some f)
    (hlen : MIN_RESPONSE_LENGTH ≤ f.length) :
    async_update_data C s env
      = ({ s1 with response_data := some f,
                   response_buffer := env.bufferAfterWait,
                   missed_updates := 0 }, parseBodyT C f) := by
  unfold async_update_data
  rw [if_neg (by simp [hen]), hok, hwf, hwr]
  rcases send_command_no_raise
      { s1 with response_data := none, response_buffer := [] }
      C.CMD_QUERY_STATUS with hs | hs <;>
    simp [hs, parse_ok C hlen]

/-! ## Claims -/

/-- C1: `_parse_status_response` is total and safe with respect to buffer
length: for every byte buffer of length ≥ `MIN_RESPONSE_LENGTH` it
returns a reading with `online = true` without raising (all bounds
checks of the field reads succeed, so no byte beyond the buffer is
read), and it is deterministic; for every buffer shorter than
`MIN_RESPONSE_LENGTH` it fails with the frame-too-short `ValueError`
before accessing any field offset. -/
theorem parse_status_response_safe (C : ProtocolConsts) (data : List Nat) :
    (MIN_RESPONSE_LENGTH ≤ data.length →
      ∃ r, parse_status_response C data = .ok r ∧ r.online = true) ∧
    (data.length < MIN_RESPONSE_LENGTH →
      parse_status_response C data = .error .frameTooShort) ∧
    (∀ data2, data = data2 →
      parse_status_response C data = parse_status_response C data2) :=
  ⟨fun h => ⟨parseBodyT C data, parse_ok C h, rfl⟩,
   fun h => parse_short C h,
   fun _ h => by rw [h]⟩

theorem parse_status_response_safe_witness :
    (∃ r, parse_status_response defaultConsts (List.replicate 104 0) = .ok r
        ∧ r.online = true) ∧
    parse_status_response defaultConsts [1, 2, 3] = .error .frameTooShort :=
  ⟨(parse_status_response_safe defaultConsts (List.replicate 104 0)).1
      (by simp [MIN_RESPONSE_LENGTH]),
   (parse_status_response_safe defaultConsts [1, 2, 3]).2.1
      (by simp [MIN_RESPONSE_LENGTH])⟩

/-- C8, counterexample: a polling cycle's failure paths modify engine
state beyond the miss counter.  Concretely, starting connected with a
stale `response_data` and a write failure: the cycle clears the
`_connected` flag (true → false) and the stale response data
(`some [9]` → `none`), refuting "no other engine state besides the miss
counter is modified". -/
theorem update_link_cx :
    (async_update_data defaultConsts
      ⟨some true, some 1, some 1, 2, true, true, [], some [9]⟩
      ⟨.deviceUnavailable, true, none, []⟩).1.connected = false ∧
    (⟨some true, some 1, some 1, 2, true, true, [], some [9]⟩ :
      EngineState).connected = true ∧
    (async_update_data defaultConsts
      ⟨some true, some 1, some 1, 2, true, true, [], some [9]⟩
      ⟨.deviceUnavailable, true, none, []⟩).1.response_data = none ∧
    (⟨some true, some 1, some 1, 2, true, true, [], some [9]⟩ :
      EngineState).response_data = some [9] := by decide

/-- C8, amended: a response timeout leaves the Link Handle (client,
write characteristic, notify characteristic) unchanged, so the next
`_ensure_connected` returns true immediately without reconnecting, while
a failed query write clears the Link Handle, so the next
`_ensure_connected` can only succeed by a fresh negotiation.  Besides
incrementing the miss counter, both paths also reset the per-cycle
transaction state (response data / reassembly buffer), and the
write-failure path additionally clears the `_connected` flag. -/
theorem update_link_effects (C : ProtocolConsts) (s s1 : EngineState)
    (env : UpdateEnv) (hen : s.connection_enabled = true)
    (hok : ensure_connected s env.conn = (s1, true)) :
    (env.writeFails = false → env.waitResult = none →
      (async_update_data C s env).1.client = s1.client ∧
      (async_update_data C s env).1.write_char = s1.write_char ∧
      (async_update_data C s env).1.notify_char = s1.notify_char ∧
      (async_update_data C s env).1.missed_updates
        = s1.missed_updates + 1 ∧
      (async_update_data C s env).1.connected = s1.connected ∧
      (async_update_data C s env).1.connection_enabled
        = s1.connection_enabled ∧
      (async_update_data C s env).1.response_data = none ∧
      (async_update_data C s env).2 = offline_data ∧
      (∀ env2, ensure_connected (async_update_data C s env).1 env2
        = ((async_update_data C s env).1, true))) ∧
    (env.writeFails = true → s1.write_char ≠ none →
      (async_update_data C s env).1.client = none ∧
      (async_update_data C s env).1.write_char = none ∧
      (async_update_data C s env).1.notify_char = none ∧
      (async_update_data C s env).1.missed_updates
        = s1.missed_updates + 1 ∧
      (async_update_data C s env).1.connected = false ∧
      (async_update_data C s env).2 = offline_data ∧
      (∀ env2 t, ensure_connected (async_update_data C s env).1 env2
          = (t, true) → ∃ n w, env2 = .negotiated (some n) (some w))) := by
  constructor
  · intro hwf hwr
    rw [update_timeout_eq C hen hok hwf hwr]
    refine ⟨rfl, rfl, rfl, rfl, rfl, rfl, rfl, rfl, fun env2 => ?_⟩
    exact ensure_fastpath (by simpa using ensure_true_client hok) env2
  · intro hwf hw
    rw [update_sendfail_eq C hen hok hwf hw]
    refine ⟨rfl, rfl, rfl, rfl, rfl, rfl, fun env2 t h => ?_⟩
    exact ensure_no_fastpath (by simp) h

theorem update_link_effects_witness :
    (async_update_data defaultConsts
      ⟨some true, some 2, some 3, 4, true, true, [], none⟩
      ⟨.connectRaises, false, none, []⟩).1.client
      = (⟨some true, some 2, some 3, 4, true, true, [], none⟩ :
          EngineState).client ∧
    (async_update_data defaultConsts
      ⟨some true, some 2, some 3, 4, true, true, [], none⟩
      ⟨.connectRaises, false, none, []⟩).1.write_char
      = (⟨some true, some 2, some 3, 4, true, true, [], none⟩ :
          EngineState).write_char ∧
    (async_update_data defaultConsts
      ⟨some true, some 2, some 3, 4, true, true, [], none⟩
      ⟨.connectRaises, false, none, []⟩).1.notify_char
      = (⟨some true, some 2, some 3, 4, true, true, [], none⟩ :
          EngineState).notify_char ∧
    (async_update_data defaultConsts
      ⟨some true, some 2, some 3, 4, true, true, [], none⟩
      ⟨.connectRaises, false, none, []⟩).1.missed_updates
      = (⟨some true, some 2, some 3, 4, true, true, [], none⟩ :
          EngineState).missed_updates + 1 ∧
    (async_update_data defaultConsts
      ⟨some true, some 2, some 3, 4, true, true, [], none⟩
      ⟨.connectRaises, false, none, []⟩).1.connected
      = (⟨some true, some 2, some 3, 4, true, true, [], none⟩ :
          EngineState).connected ∧
    (async_update_data defaultConsts
      ⟨some true, some 2, some 3, 4, true, true, [], none⟩
      ⟨.connectRaises, false, none, []⟩).1.connection_enabled
      = (⟨some true, some 2, some 3, 4, true, true, [], none⟩ :
          EngineState).connection_enabled ∧
    (async_update_data defaultConsts
      ⟨some true, some 2, some 3, 4, true, true, [], none⟩
      ⟨.connectRaises, false, none, []⟩).1.response_data = none ∧
    (async_update_data defaultConsts
      ⟨some true, some 2, some 3, 4, true, true, [], none⟩
      ⟨.connectRaises, false, none, []⟩).2 = offline_data ∧
    (∀ env2, ensure_connected
        (async_update_data defaultConsts
          ⟨some true, some 2, some 3, 4, true, true, [], none⟩
          ⟨.connectRaises, false, none, []⟩).1 env2
      = ((async_update_data defaultConsts
          ⟨some true, some 2, some 3, 4, true, true, [], none⟩
          ⟨.connectRaises, false, none, []⟩).1, true)) :=
  (update_link_effects defaultConsts
    ⟨some true, some 2, some 3, 4, true, true, [], none⟩
    ⟨some true, some 2, some 3, 4, true, true, [], none⟩
    ⟨.connectRaises, false, none, []⟩ (by decide) (by decide)).1
    rfl rfl

/-- C9, counterexample: (1) a cycle that reconnects fresh (resetting the
counter to 0) and then fails the query write ends with counter 1, not
the pre-cycle value 5 plus one; (2) an already-connected
`_ensure_connected` returns true without resetting the counter, refuting
"resets the failure counter exactly when it succeeds". -/
theorem miss_counter_cx :
    (async_update_data defaultConsts
      ⟨none, none, none, 5, false, true, [], none⟩
      ⟨.negotiated (some 1) (some 2), true, none, []⟩).1.missed_updates
      = 1 ∧
    (1 : Nat) ≠ 5 + 1 ∧
    (ensure_connected ⟨some true, some 1, some 1, 5, true, true, [], none⟩
      (.negotiated (some 1) (some 2))).2 = true ∧
    (ensure_connected ⟨some true, some 1, some 1, 5, true, true, [], none⟩
      (.negotiated (some 1) (some 2))).1.missed_updates = 5 := by decide

/-- C9, amended: relative to the counter value after the
link-establishment step (a fresh successful negotiation resets it to 0
first; an already-connected fast path leaves it untouched while
returning true), every connect-failure, send-failure and timeout cycle
increments the consecutive-miss counter by exactly one, and every cycle
returning a live reading resets it to zero.  Frames emitted by the
reassembler always have length ≥ `MIN_RESPONSE_LENGTH`, so their decode
never fails (the no-increment decode-failure branch is unreachable for
handler-delivered frames). -/
theorem miss_counter_policy (C : ProtocolConsts) (s s1 : EngineState)
    (env : UpdateEnv) (hen : s.connection_enabled = true) :
    (ensure_connected s env.conn = (s1, false) →
      (async_update_data C s env).1.missed_updates
        = s.missed_updates + 1) ∧
    (ensure_connected s env.conn = (s1, true) → env.writeFails = true →
      s1.write_char ≠ none →
      (async_update_data C s env).1.missed_updates
        = s1.missed_updates + 1) ∧
    (ensure_connected s env.conn = (s1, true) → env.writeFails = false →
      env.waitResult = none →
      (async_update_data C s env).1.missed_updates
        = s1.missed_updates + 1) ∧
    (∀ f, ensure_connected s env.conn = (s1, true) →
      env.writeFails = false → env.waitResult = some f →
      MIN_RESPONSE_LENGTH ≤ f.length →
      (async_update_data C s env).1.missed_updates = 0 ∧
      (async_update_data C s env).2 = parseBodyT C f) ∧
    (s.client = some true → ensure_connected s env.conn = (s, true)) ∧
    (s.client ≠ some true → ensure_connected s env.conn = (s1, true) →
      s1.missed_updates = 0) ∧
    (∀ b p b' f, notification_handler b p = (b', some f) →
      parse_status_response C f = .ok (parseBodyT C f)) := by
  refine ⟨?_, ?_, ?_, ?_, ?_, ?_, ?_⟩
  · intro hfail
    rw [update_connfail_eq C hen hfail]
    simpa using (ensure_fail_missed hfail).symm ▸ rfl
  · intro hok hwf hw
    rw [update_sendfail_eq C hen hok hwf hw]
  · intro hok hwf hwr
    rw [update_timeout_eq C hen hok hwf hwr]
  · intro f hok hwf hwr hlen
    rw [update_success_eq C hen hok hwf hwr hlen]
    exact ⟨rfl, rfl⟩
  · intro hc
    exact ensure_fastpath hc env.conn
  · intro hc hok
    exact ensure_fresh_reset hc hok
  · intro b p b' f hemit
    exact parse_ok C (notification_handler_emit_length hemit)

theorem miss_counter_policy_witness :
    (async_update_data defaultConsts
      ⟨some true, some 1, some 1, 3, true, true, [], none⟩
      ⟨.deviceUnavailable, false, none, []⟩).1.missed_updates
      = (⟨some true, some 1, some 1, 3, true, true, [], none⟩ :
          EngineState).missed_updates + 1 :=
  (miss_counter_policy defaultConsts
    ⟨some true, some 1, some 1, 3, true, true, [], none⟩
    ⟨some true, some 1, some 1, 3, true, true, [], none⟩
    ⟨.deviceUnavailable, false, none, []⟩ (by decide)).2.2.1
    (by decide) rfl rfl

/-- C7, counterexample: with a connected link and write characteristic
present, a transport write failure inside `async_set_charging` is
re-raised by `_send_command` and not caught by `async_set_charging`, so
the exception propagates to the caller, refuting "no failure is ever
raised past the relay-control operations". -/
theorem relay_ops_raise_cx :
    (async_set_charging defaultConsts
      ⟨some true, some 1, some 1, 0, true, true, [], none⟩
      true .deviceUnavailable true).2 = .raised := by decide

/-- C7, amended: when the device is unavailable or the connect fails, the
relay-control operations log and return normally with no command sent;
when the transport write itself does not fail they never raise; but a
transport write failure during the send is re-raised by `_send_command`
and propagates out of `async_set_charging` / `async_set_discharging` to
the caller. -/
theorem relay_ops_error_handling (C : ProtocolConsts) (s s1 : EngineState)
    (enabled : Bool) (env : ConnectEnv) (wf : Bool) :
    (ensure_connected s env = (s1, false) →
      async_set_charging C s enabled env wf = (s1, .returned none) ∧
      async_set_discharging C s enabled env wf = (s1, .returned none)) ∧
    (wf = false →
      (async_set_charging C s enabled env wf).2 ≠ .raised ∧
      (async_set_discharging C s enabled env wf).2 ≠ .raised) ∧
    (ensure_connected s env = (s1, true) → s1.write_char ≠ none →
      async_set_charging C s enabled env true = (s1, .raised) ∧
      async_set_discharging C s enabled env true = (s1, .raised)) := by
  refine ⟨?_, ?_, ?_⟩
  · intro hfail
    constructor
    · unfold async_set_charging
      rw [hfail]
    · unfold async_set_discharging
      rw [hfail]
  · intro hwf
    subst hwf
    rcases hp : ensure_connected s env with ⟨t, ok⟩
    cases ok
    · constructor
      · unfold async_set_charging
        rw [hp]
        simp
      · unfold async_set_discharging
        rw [hp]
        simp
    · constructor
      · unfold async_set_charging
        rw [hp]
        rcases send_command_no_raise t
            (if enabled then C.CMD_CHARGE_ON else C.CMD_CHARGE_OFF)
          with hs | hs <;> simp [hs]
      · unfold async_set_discharging
        rw [hp]
        rcases send_command_no_raise t
            (if enabled then C.CMD_DISCHARGE_ON else C.CMD_DISCHARGE_OFF)
          with hs | hs <;> simp [hs]
  · intro hok hw
    have hc : s1.client ≠ none := by
      rw [ensure_true_client hok]
      simp
    constructor
    · unfold async_set_charging
      rw [hok]
      simp [send_command_raise _ hc hw]
    · unfold async_set_discharging
      rw [hok]
      simp [send_command_raise _ hc hw]

theorem relay_ops_error_handling_witness :
    (async_set_charging defaultConsts
        ⟨none, none, none, 0, false, true, [], none⟩
        true .deviceUnavailable false
      = (⟨none, none, none, 0, false, true, [], none⟩, .returned none)) ∧
    (async_set_discharging defaultConsts
        ⟨none, none, none, 0, false, true, [], none⟩
        true .deviceUnavailable false
      = (⟨none, none, none, 0, false, true, [], none⟩, .returned none)) :=
  (relay_ops_error_handling defaultConsts
    ⟨none, none, none, 0, false, true, [], none⟩
    ⟨none, none, none, 0, false, true, [], none⟩
    true .deviceUnavailable false).1 (by decide)

/-- C2, counterexample: the split-frame scenario fails when the second
fragment itself begins with the marker byte.  For the 104-byte frame that
is all zero except bytes 2 and 42 (both `0x65`), delivering
`first[0:40]` then `first[40:104]` emits no frame at all: the second
fragment's byte at offset 2 is `first[42] = 0x65`, so the handler
discards the partial buffer and restarts accumulation, exactly the
truncation hazard spec §9 warns about. -/
theorem notification_handler_split_cx :
    (List.replicate 2 0 ++ [0x65] ++ List.replicate 39 0 ++ [0x65]
        ++ List.replicate 61 0 : List Nat).length = 104 ∧
    (List.replicate 2 0 ++ [0x65] ++ List.replicate 39 0 ++ [0x65]
        ++ List.replicate 61 0 : List Nat).getD 2 0 = 0x65 ∧
    (notification_handler []
      ((List.replicate 2 0 ++ [0x65] ++ List.replicate 39 0 ++ [0x65]
        ++ List.replicate 61 0 : List Nat).take 40)).2 = none ∧
    (notification_handler
      (notification_handler []
        ((List.replicate 2 0 ++ [0x65] ++ List.replicate 39 0 ++ [0x65]
          ++ List.replicate 61 0 : List Nat).take 40)).1
      ((List.replicate 2 0 ++ [0x65] ++ List.replicate 39 0 ++ [0x65]
        ++ List.replicate 61 0 : List Nat).drop 40)).2 = none :=
  by decide

/-- C2, amended: `_notification_handler` implements the spec's two-state
machine exactly (via the abstraction "empty buffer = Idle, nonempty
buffer = Accumulating"), and the split-frame scenario holds provided the
second fragment does not itself start with the marker byte (i.e.
`first[42] ≠ 0x65`): `first[0:40]` then `first[40:104]` emits exactly one
frame, equal to the concatenation, and a subsequent non-marker packet is
discarded. -/
theorem notification_handler_machine (first q : List Nat)
    (h104 : first.length = 104)
    (hmark : first.getD 2 0 = RESPONSE_MARKER_VALUE)
    (hmid : first.getD 42 0 ≠ RESPONSE_MARKER_VALUE)
    (hq : isMarkerPacket q = false) :
    (∀ buffer pkt,
      (absBuf (notification_handler buffer pkt).1,
        (notification_handler buffer pkt).2)
        = reasmSpecStep (absBuf buffer) pkt) ∧
    notification_handler [] (first.take 40) = (first.take 40, none) ∧
    notification_handler (first.take 40) (first.drop 40)
      = ([], some first) ∧
    notification_handler [] q = ([], none) := by
  refine ⟨?_, ?_, ?_, ?_⟩
  · intro buffer pkt
    by_cases hm : isMarkerPacket pkt
    · have hne : pkt ≠ [] := by
        intro hnil
        rw [hnil] at hm
        simp [isMarkerPacket] at hm
      simp only [notification_handler, reasmSpecStep, hm, if_true,
        emitCheck]
      by_cases hlen : MIN_RESPONSE_LENGTH ≤ pkt.length
      · simp [hlen, absBuf]
      · simp [hlen, absBuf, hne]
    · by_cases hb : buffer = []
      · subst hb
        simp [notification_handler, reasmSpecStep, hm, absBuf]
      · have h0 : 0 < buffer.length := List.length_pos.mpr hb
        have hne : buffer ++ pkt ≠ [] := by simp [hb]
        simp only [notification_handler, reasmSpecStep, hm, emitCheck,
          Bool.false_eq_true, if_false, h0, if_true, absBuf, hb]
        by_cases hlen : MIN_RESPONSE_LENGTH ≤ buffer.length + pkt.length
        · simp [hlen, absBuf]
        · simp [hlen, absBuf, hne]
  · have hg : (first.take 40).getD 2 0 = first.getD 2 0 := by
      simp [List.getD_eq_getElem?_getD, List.getElem?_take]
    have hm : isMarkerPacket (first.take 40) = true := by
      simp only [isMarkerPacket, RESPONSE_MARKER_OFFSET, hg, hmark]
      simp [List.length_take, h104]
    have hlen : ¬ (MIN_RESPONSE_LENGTH ≤ (first.take 40).length) := by
      rw [List.length_take, h104]
      have hM : MIN_RESPONSE_LENGTH = 104 := rfl
      omega
    have he : emitCheck (first.take 40) = (first.take 40, none) := by
      unfold emitCheck
      rw [if_neg hlen]
    simp [notification_handler, hm, he]
  · have hg2 : (first.drop 40).getD 2 0 = first.getD 42 0 := by
      simp [List.getD_eq_getElem?_getD, List.getElem?_drop]
    have hmid' : ¬ (first[42]?.getD 0 = RESPONSE_MARKER_VALUE) := by
      rw [← List.getD_eq_getElem?_getD]
      exact hmid
    have hm2 : isMarkerPacket (first.drop 40) = false := by
      simp only [isMarkerPacket, RESPONSE_MARKER_OFFSET, hg2]
      simp [hmid, hmid']
    have h0 : 0 < (first.take 40).length := by
      rw [List.length_take, h104]
      omega
    have hfl : MIN_RESPONSE_LENGTH ≤ first.length := by
      rw [h104]
      exact Nat.le.refl
    have hplen : 0 < first.length := by omega
    have he2 : emitCheck first = ([], some first) := by
      unfold emitCheck
      rw [if_pos hfl]
    simp [notification_handler, hm2, h0, hplen, he2,
      List.take_append_drop]
  · simp [notification_handler, hq]

theorem notification_handler_machine_witness :
    (∀ buffer pkt,
      (absBuf (notification_handler buffer pkt).1,
        (notification_handler buffer pkt).2)
        = reasmSpecStep (absBuf buffer) pkt) ∧
    notification_handler []
      ((List.replicate 2 0 ++ [0x65] ++ List.replicate 101 0).take 40)
      = ((List.replicate 2 0 ++ [0x65] ++ List.replicate 101 0).take 40,
          none) ∧
    notification_handler
      ((List.replicate 2 0 ++ [0x65] ++ List.replicate 101 0).take 40)
      ((List.replicate 2 0 ++ [0x65] ++ List.replicate 101 0).drop 40)
      = ([], some (List.replicate 2 0 ++ [0x65] ++ List.replicate 101 0)) ∧
    notification_handler [] [1, 2] = ([], none) :=
  notification_handler_machine
    (List.replicate 2 0 ++ [0x65] ++ List.replicate 101 0) [1, 2]
    (by decide) (by decide) (by decide) (by decide)

/-- C10: the notification handler never indexes past the end of a short
packet (length ≤ 2): the marker test short-circuits on the length check,
so such a packet is appended to the buffer whenever a partial frame is
accumulating (then the usual completion check runs), and is discarded
with no state change when the buffer is empty. -/
theorem notification_handler_short_packet (buffer pkt : List Nat)
    (h : pkt.length ≤ 2) :
    (buffer = [] → notification_handler buffer pkt = ([], none)) ∧
    (buffer ≠ [] →
      notification_handler buffer pkt = emitCheck (buffer ++ pkt)) := by
  have h2 : ¬ (RESPONSE_MARKER_OFFSET < pkt.length) := by
    simp [RESPONSE_MARKER_OFFSET]
    omega
  have hm : isMarkerPacket pkt = false := by
    simp [isMarkerPacket, h2]
  constructor
  · intro hb
    subst hb
    simp [notification_handler, hm]
  · intro hb
    have h0 : 0 < buffer.length := List.length_pos.mpr hb
    simp [notification_handler, hm, h0]

theorem notification_handler_short_packet_witness :
    notification_handler [5] [9] = emitCheck ([5] ++ [9]) ∧
    notification_handler [] [9] = ([], none) :=
  ⟨(notification_handler_short_packet [5] [9] (by decide)).2 (by decide),
   (notification_handler_short_packet [] [9] (by decide)).1 rfl⟩

/-- C3, counterexample: a 104-byte all-zero frame passes the
minimum-length check and decodes to a reading with `online = true` whose
`min_cell_voltage` field is absent (every raw cell word is 0, so no cell
is present), refuting "there is no reading with `online = true` in which
some field is absent". -/
theorem status_reading_online_cx :
    (parse_status_response defaultConsts (List.replicate 104 0)).map
        StatusReading.online = .ok true ∧
    (parse_status_response defaultConsts (List.replicate 104 0)).map
        StatusReading.min_cell_voltage = .ok none := by
  rw [parse_ok defaultConsts (by simp [MIN_RESPONSE_LENGTH])]
  constructor
  · rfl
  · simp [Except.map, parseBodyT_min, cellRawsT, u16le, cellLoop]

/-- C3, amended: the two reading producers have the identical field set
(both build the same record type).  A live reading has `online = true`
and every field present except possibly the three derived cell fields
(`min`/`max`/`delta` cell voltage) and individual cell entries, which are
absent exactly when no nonzero cell word exists (C4); the offline reading
has `online = false` and every other field absent. -/
theorem status_reading_shape (C : ProtocolConsts) (data : List Nat) :
    (∀ r, parse_status_response C data = .ok r →
      r.online = true ∧ r.total_voltage.isSome ∧ r.current.isSome ∧
      r.power.isSome ∧ r.state_of_charge.isSome ∧
      r.state_of_health.isSome ∧ r.cell_temperature.isSome ∧
      r.mosfet_temperature.isSome ∧ r.remaining_capacity.isSome ∧
      r.full_charge_capacity.isSome ∧ r.discharge_cycles.isSome ∧
      r.total_discharge_ah.isSome ∧ r.charging.isSome ∧
      r.discharging.isSome ∧ r.balancing.isSome ∧
      r.charge_enabled.isSome ∧ r.discharge_enabled.isSome ∧
      r.protection_status.isSome ∧ r.failure_status.isSome) ∧
    (offline_data.online = false ∧ offline_data.total_voltage = none ∧
      offline_data.current = none ∧ offline_data.power = none ∧
      offline_data.state_of_charge = none ∧
      offline_data.state_of_health = none ∧
      offline_data.cell_temperature = none ∧
      offline_data.mosfet_temperature = none ∧
      offline_data.remaining_capacity = none ∧
      offline_data.full_charge_capacity = none ∧
      offline_data.discharge_cycles = none ∧
      offline_data.total_discharge_ah = none ∧
      offline_data.min_cell_voltage = none ∧
      offline_data.max_cell_voltage = none ∧
      offline_data.delta_cell_voltage = none ∧
      offline_data.cell_voltages = List.replicate MAX_CELLS none ∧
      offline_data.charging = none ∧ offline_data.discharging = none ∧
      offline_data.balancing = none ∧ offline_data.charge_enabled = none ∧
      offline_data.discharge_enabled = none ∧
      offline_data.protection_status = none ∧
      offline_data.failure_status = none) := by
  constructor
  · intro r h
    rw [parse_ok_inv C h]
    exact ⟨rfl, rfl, rfl, rfl, rfl, rfl, rfl, rfl, rfl, rfl, rfl, rfl,
      rfl, rfl, rfl, rfl, rfl, rfl, rfl⟩
  · exact ⟨rfl, rfl, rfl, rfl, rfl, rfl, rfl, rfl, rfl, rfl, rfl, rfl,
      rfl, rfl, rfl, rfl, rfl, rfl, rfl, rfl, rfl, rfl, rfl⟩

theorem status_reading_shape_witness :
    (parseBodyT defaultConsts (List.replicate 104 7)).online = true ∧
    (parseBodyT defaultConsts (List.replicate 104 7)).total_voltage.isSome ∧
    (parseBodyT defaultConsts (List.replicate 104 7)).current.isSome ∧
    (parseBodyT defaultConsts (List.replicate 104 7)).power.isSome ∧
    (parseBodyT defaultConsts
      (List.replicate 104 7)).state_of_charge.isSome ∧
    (parseBodyT defaultConsts
      (List.replicate 104 7)).state_of_health.isSome ∧
    (parseBodyT defaultConsts
      (List.replicate 104 7)).cell_temperature.isSome ∧
    (parseBodyT defaultConsts
      (List.replicate 104 7)).mosfet_temperature.isSome ∧
    (parseBodyT defaultConsts
      (List.replicate 104 7)).remaining_capacity.isSome ∧
    (parseBodyT defaultConsts
      (List.replicate 104 7)).full_charge_capacity.isSome ∧
    (parseBodyT defaultConsts
      (List.replicate 104 7)).discharge_cycles.isSome ∧
    (parseBodyT defaultConsts
      (List.replicate 104 7)).total_discharge_ah.isSome ∧
    (parseBodyT defaultConsts (List.replicate 104 7)).charging.isSome ∧
    (parseBodyT defaultConsts (List.replicate 104 7)).discharging.isSome ∧
    (parseBodyT defaultConsts (List.replicate 104 7)).balancing.isSome ∧
    (parseBodyT defaultConsts
      (List.replicate 104 7)).charge_enabled.isSome ∧
    (parseBodyT defaultConsts
      (List.replicate 104 7)).discharge_enabled.isSome ∧
    (parseBodyT defaultConsts
      (List.replicate 104 7)).protection_status.isSome ∧
    (parseBodyT defaultConsts (List.replicate 104 7)).failure_status.isSome :=
  (status_reading_shape defaultConsts (List.replicate 104 7)).1
    (parseBodyT defaultConsts (List.replicate 104 7))
    (parse_ok defaultConsts (by simp [MIN_RESPONSE_LENGTH]))

/-- C4: a raw cell word of 0 at offset `16 + 2*i` yields an absent cell
entry (never a 0.0 reading); the `min`/`max`/`delta` cell voltages are
computed only over the nonzero raw cell words (the loop accumulator is
unchanged by filtering the zero raws out); when every raw cell word is 0
all three derived fields are absent. -/
theorem cell_zero_absent (C : ProtocolConsts) (data : List Nat)
    (r : StatusReading) (h : parse_status_response C data = .ok r) :
    (∀ i, i < MAX_CELLS → u16le data (16 + 2 * i) = 0 →
      r.cell_voltages.getD i none = none) ∧
    (let mmcF := cellLoop
        ((cellRawsT data).filter (fun raw => decide (raw ≠ 0))) 99 0 0
     r.min_cell_voltage = (if 0 < mmcF.2.2 then some mmcF.1 else none) ∧
     r.max_cell_voltage = (if 0 < mmcF.2.2 then some mmcF.2.1 else none) ∧
     r.delta_cell_voltage =
       (if 0 < mmcF.2.2 then some (roundTo 3 (mmcF.2.1 - mmcF.1))
        else none)) ∧
    ((∀ i, i < MAX_CELLS → u16le data (16 + 2 * i) = 0) →
      r.min_cell_voltage = none ∧ r.max_cell_voltage = none ∧
      r.delta_cell_voltage = none) := by
  rw [parse_ok_inv C h]
  refine ⟨?_, ?_, ?_⟩
  · intro i hi hzero
    have hi' : i < 16 := by simpa [MAX_CELLS] using hi
    rw [parseBodyT_cells]
    interval_cases i <;> norm_num at hzero <;>
      simp [cellRawsT, List.getD_cons_zero, List.getD_cons_succ, hzero]
  · have hmm : cellLoop (cellRawsT data) 99 0 0
        = cellLoop ((cellRawsT data).filter
            (fun raw => decide (raw ≠ 0))) 99 0 0 :=
      cellLoop_filter (cellRawsT data) 99 0 0
    rw [parseBodyT_min, parseBodyT_max, parseBodyT_delta, hmm]
    exact ⟨rfl, rfl, rfl⟩
  · intro hall
    have hz : ∀ j : Nat, j < 16 → u16le data (16 + 2 * j) = 0 :=
      fun j hj => hall j (by simpa [MAX_CELLS] using hj)
    have h0 := hz 0 (by omega); have h1 := hz 1 (by omega)
    have h2 := hz 2 (by omega); have h3 := hz 3 (by omega)
    have h4 := hz 4 (by omega); have h5 := hz 5 (by omega)
    have h6 := hz 6 (by omega); have h7 := hz 7 (by omega)
    have h8 := hz 8 (by omega); have h9 := hz 9 (by omega)
    have h10 := hz 10 (by omega); have h11 := hz 11 (by omega)
    have h12 := hz 12 (by omega); have h13 := hz 13 (by omega)
    have h14 := hz 14 (by omega); have h15 := hz 15 (by omega)
    norm_num at h0 h1 h2 h3 h4 h5 h6 h7 h8 h9 h10 h11 h12 h13 h14 h15
    have e : cellRawsT data = [0, 0, 0, 0, 0, 0, 0, 0, 0, 0, 0, 0, 0, 0, 0, 0] := by
      simp [cellRawsT, h0, h1, h2, h3, h4, h5, h6, h7, h8, h9, h10, h11,
        h12, h13, h14, h15]
    rw [parseBodyT_min, parseBodyT_max, parseBodyT_delta, e]
    simp [cellLoop]

theorem cell_zero_absent_witness :
    ((parseBodyT defaultConsts (List.replicate 104 0)).cell_voltages.getD 0
        none = none) ∧
    ((parseBodyT defaultConsts (List.replicate 104 0)).min_cell_voltage
        = none) := by
  have hp := cell_zero_absent defaultConsts (List.replicate 104 0)
    (parseBodyT defaultConsts (List.replicate 104 0))
    (parse_ok defaultConsts (by simp [MIN_RESPONSE_LENGTH]))
  refine ⟨hp.1 0 (by decide) (u16le_replicate_zero 104 16), ?_⟩
  exact (hp.2.2 (fun i hi => u16le_replicate_zero 104 (16 + 2 * i))).1

/-- C5: for every opcode byte, `_build_command(opcode)` is the 8-byte
frame `[0x00, 0x00, 0x04, 0x01, opcode, 0x55, 0xAA, (0x05 + opcode) mod
256]`; it is a pure total function and, the opcode being a byte, every
element is a valid byte, so the `bytes(...)` constructor cannot fail. -/
theorem build_command_layout (cmd : Nat) (h : cmd < 256) :
    build_command cmd
      = [0x00, 0x00, 0x04, 0x01, cmd, 0x55, 0xAA, (0x05 + cmd) % 256] ∧
    ∀ b ∈ build_command cmd, b < 256 := by
  refine ⟨rfl, fun b hb => ?_⟩
  simp [build_command] at hb
  rcases hb with hb | hb | hb | hb | hb | hb | hb | hb <;> omega

theorem build_command_layout_witness :
    build_command 0x10
      = [0x00, 0x00, 0x04, 0x01, 0x10, 0x55, 0xAA, (0x05 + 0x10) % 256] ∧
    ∀ b ∈ build_command 0x10, b < 256 :=
  build_command_layout 0x10 (by decide)

/-- C6, counterexample: the claimed checksum byte `0x0A` for opcode
`0x01` is wrong; `_build_command(0x01)` does not return
`[0x00, 0x00, 0x04, 0x01, 0x01, 0x55, 0xAA, 0x0A]`. -/
theorem build_command_query_cx :
    build_command 0x01 ≠ [0x00, 0x00, 0x04, 0x01, 0x01, 0x55, 0xAA, 0x0A] :=
  by decide

/-- C6, amended: `_build_command(0x01)` is exactly
`[0x00, 0x00, 0x04, 0x01, 0x01, 0x55, 0xAA, 0x06]`: the checksum byte
for opcode `0x01` is `0x04 + 0x01 + 0x01 = 0x06`. -/
theorem build_command_query :
    build_command 0x01 = [0x00, 0x00, 0x04, 0x01, 0x01, 0x55, 0xAA, 0x06] :=
  by decide

end LitimeBms
